import Mathlib

/-!
Verification of the Earthquake Triangulator (src/earthquake.py) against its
natural-language specification.

The program is a TDOA (time-difference-of-arrival) locator: it generates
random seismic stations and a true source point, synthesizes noisy relative
arrival times, and inverts them with scipy.optimize.least_squares.

Shallow embedding conventions:
* numpy length-3 arrays become the `Vec3` structure over ℝ;
* numpy length-n arrays become functions `Fin n → ℝ` (shape discipline of
  numpy broadcasting is carried by the types);
* every call to the global numpy RNG is threaded as an explicit draw value:
  `np.random.rand()` becomes a value u ∈ [0,1) supplied as an argument, and
  `np.random.uniform(a, b)` becomes `a + (b - a) * u` (numpy's definition);
* `scipy.optimize.least_squares` minimizes (1/2) Σ residual_i²; we embed the
  objective it minimizes (`cost`) and the predicate of being a global
  minimizer (`IsLeastSquaresEstimate`); main's handling of the returned
  OptimizeResult (it reads only `.x`) is embedded as `main_solve_report`.
-/

namespace Earthquake

/-- A 3-component vector/point in meters, mirroring the numpy length-3 arrays
used for stations and points in earthquake.py. -/
structure Vec3 where
  x : ℝ
  y : ℝ
  z : ℝ

/-- Euclidean norm of a 3-vector: `np.linalg.norm` on a length-3 array. -/
noncomputable def norm3 (a : Vec3) : ℝ :=
  Real.sqrt (a.x ^ 2 + a.y ^ 2 + a.z ^ 2)

/-- Euclidean distance between two 3-D points: `np.linalg.norm(a - b)`. -/
noncomputable def dist3 (a b : Vec3) : ℝ :=
  norm3 ⟨a.x - b.x, a.y - b.y, a.z - b.z⟩

/-- earthquake.py lines 14–24, `gen_station_positions(n, rad)`.
For station i the code draws `r = sqrt(rand())*rad`, `theta = rand()*2*pi`,
`z = uniform(-500, 500)`.  The three `np.random` draws for station i are
threaded explicitly as `u1 i`, `u2 i`, `u3 i` (each in [0,1)); numpy's
`uniform(-500, 500)` is `-500 + 1000 * u`. -/
noncomputable def gen_station_positions (n : ℕ) (rad : ℝ)
    (u1 u2 u3 : Fin n → ℝ) : Fin n → Vec3 :=
  fun i =>
    let r := Real.sqrt (u1 i) * rad
    let theta := u2 i * (2 * Real.pi)
    ⟨r * Real.cos theta, r * Real.sin theta, -500 + 1000 * u3 i⟩

/-- earthquake.py lines 26–34, `gen_true_point(rad, dmin, dmax)`:
disk-uniform (x, y) and `z = -uniform(dmin, dmax) = -(dmin + (dmax-dmin)*u)`.
The three RNG draws are threaded explicitly as u1, u2, u3 ∈ [0,1). -/
noncomputable def gen_true_point (rad dmin dmax u1 u2 u3 : ℝ) : Vec3 :=
  let r := Real.sqrt u1 * rad
  let theta := u2 * (2 * Real.pi)
  ⟨r * Real.cos theta, r * Real.sin theta, -(dmin + (dmax - dmin) * u3)⟩

/-- earthquake.py lines 36–42, `residuals_time(p, stations, rel_times, v,
ref_index)`: `t_pred = norm(stations - p, axis=1)/v`,
`t_rel_pred = t_pred - t_pred[ref_index]`, result `t_rel_pred - rel_times`. -/
noncomputable def residuals_time {n : ℕ} (p : Vec3) (stations : Fin n → Vec3)
    (rel_times : Fin n → ℝ) (v : ℝ) (ref_index : Fin n) : Fin n → ℝ :=
  let t_pred : Fin n → ℝ := fun i => dist3 (stations i) p / v
  let t_rel_pred : Fin n → ℝ := fun i => t_pred i - t_pred ref_index
  fun i => t_rel_pred i - rel_times i

/-- earthquake.py line 77: `true_times = norm(stations - true_point, axis=1)/v`. -/
noncomputable def travel_times {n : ℕ} (stations : Fin n → Vec3) (tp : Vec3)
    (v : ℝ) : Fin n → ℝ :=
  fun i => dist3 (stations i) tp / v

/-- `np.argmin` over a nonempty real vector: index of the minimum value,
first occurrence on ties (scan keeps the earlier index unless a strictly
smaller value appears later). -/
noncomputable def argminFin : {n : ℕ} → (Fin (n + 1) → ℝ) → Fin (n + 1)
  | 0, _ => 0
  | n + 1, f =>
    if f (Fin.last (n + 1)) < f (argminFin fun i : Fin (n + 1) => f i.castSucc).castSucc
    then Fin.last (n + 1)
    else (argminFin fun i : Fin (n + 1) => f i.castSucc).castSucc

/-- earthquake.py line 79: `ref_index = np.argmin(true_times)`. -/
noncomputable def scenario_ref {n : ℕ} (stations : Fin (n + 1) → Vec3)
    (tp : Vec3) (v : ℝ) : Fin (n + 1) :=
  argminFin (travel_times stations tp v)

/-- earthquake.py line 84: `noisy_times = true_times + normal(0, noise_std, n)`.
The Gaussian draw vector is threaded explicitly as `noise`. -/
noncomputable def noisy_times {n : ℕ} (stations : Fin n → Vec3) (tp : Vec3)
    (v : ℝ) (noise : Fin n → ℝ) : Fin n → ℝ :=
  fun i => travel_times stations tp v i + noise i

/-- earthquake.py line 85:
`measured_rel_times = noisy_times - noisy_times[ref_index]`. -/
noncomputable def measured_rel_times {n : ℕ} (stations : Fin (n + 1) → Vec3)
    (tp : Vec3) (v : ℝ) (noise : Fin (n + 1) → ℝ) : Fin (n + 1) → ℝ :=
  fun i =>
    noisy_times stations tp v noise i
      - noisy_times stations tp v noise (scenario_ref stations tp v)

/-- earthquake.py lines 97–99: `centroid = np.mean(stations, axis=0)`. -/
noncomputable def centroid {n : ℕ} (stations : Fin n → Vec3) : Vec3 :=
  ⟨(∑ i, (stations i).x) / n, (∑ i, (stations i).y) / n,
    (∑ i, (stations i).z) / n⟩

/-- earthquake.py line 99: `p0 = np.array([centroid[0], centroid[1], -5000])`. -/
noncomputable def p0 {n : ℕ} (stations : Fin n → Vec3) : Vec3 :=
  ⟨(centroid stations).x, (centroid stations).y, -5000⟩

/-- `argminFin` attains the minimum of the vector (np.argmin semantics). -/
theorem argminFin_le : ∀ {n : ℕ} (f : Fin (n + 1) → ℝ) (i : Fin (n + 1)),
    f (argminFin f) ≤ f i := by
  intro n
  induction n with
  | zero =>
    intro f i
    have hi : i = 0 := Fin.eq_zero i
    subst hi
    exact le_of_eq rfl
  | succ n ih =>
    intro f i
    by_cases h :
        f (Fin.last (n + 1)) <
          f (argminFin fun k : Fin (n + 1) => f k.castSucc).castSucc
    · rw [show argminFin f = Fin.last (n + 1) from by rw [argminFin]; exact if_pos h]
      refine Fin.lastCases ?_ ?_ i
      · exact le_refl _
      · intro j
        exact le_trans (le_of_lt h) (ih (fun k => f k.castSucc) j)
    · rw [show argminFin f =
            (argminFin fun k : Fin (n + 1) => f k.castSucc).castSucc from by
          rw [argminFin]; exact if_neg h]
      refine Fin.lastCases ?_ ?_ i
      · exact le_of_not_lt h
      · intro j
        exact ih (fun k => f k.castSucc) j

/-- C1: for every candidate point p, station array, measured relative-time
vector, speed v > 0 and reference index in [0, n), the residual vector (its
length n is carried by the type `Fin n → ℝ`) has i-th entry
(‖stations i − p‖/v − ‖stations ref − p‖/v) − rel_times i
(earthquake.py lines 36–42). -/
theorem C1_residuals_time_spec {n : ℕ} (p : Vec3) (stations : Fin n → Vec3)
    (rel_times : Fin n → ℝ) (v : ℝ) (hv : 0 < v) (ref_index i : Fin n) :
    residuals_time p stations rel_times v ref_index i =
      (dist3 (stations i) p / v - dist3 (stations ref_index) p / v)
        - rel_times i := rfl

/-- C1 witness: the residual formula evaluated at a concrete input with
speed v = 1 > 0. -/
theorem C1_witness :
    (0 : ℝ) < 1 ∧
    residuals_time ⟨0, 0, 0⟩ (fun _ : Fin 1 => ⟨3, 4, 0⟩) (fun _ => 2) 1 0 0 =
      (dist3 ⟨3, 4, 0⟩ ⟨0, 0, 0⟩ / 1 - dist3 ⟨3, 4, 0⟩ ⟨0, 0, 0⟩ / 1) - 2 :=
  ⟨by norm_num,
    C1_residuals_time_spec ⟨0, 0, 0⟩ (fun _ : Fin 1 => ⟨3, 4, 0⟩) (fun _ => 2)
      1 (by norm_num) 0 0⟩

/-- C9: the initial guess p0 has x and y equal to the mean of the stations'
x and y coordinates and z fixed at −5000 m (earthquake.py lines 97–99). -/
theorem C9_initial_guess {n : ℕ} (stations : Fin n → Vec3) :
    (p0 stations).x = (∑ i, (stations i).x) / n ∧
    (p0 stations).y = (∑ i, (stations i).y) / n ∧
    (p0 stations).z = -5000 :=
  ⟨rfl, rfl, rfl⟩

/-- C3: in the generated scenario (earthquake.py lines 77–85) the reference
index attains the minimum of the true travel times, noise is added to each
travel time (not to the relative times), and the measured relative time of
station i is noisy travel time i minus noisy travel time at the reference. -/
theorem C3_scenario_generation {n : ℕ} (stations : Fin (n + 1) → Vec3)
    (tp : Vec3) (v : ℝ) (noise : Fin (n + 1) → ℝ) (i : Fin (n + 1)) :
    travel_times stations tp v (scenario_ref stations tp v) ≤
        travel_times stations tp v i ∧
    measured_rel_times stations tp v noise i =
      (travel_times stations tp v i + noise i) -
        (travel_times stations tp v (scenario_ref stations tp v) +
          noise (scenario_ref stations tp v)) :=
  ⟨argminFin_le (travel_times stations tp v) i, rfl⟩

/-- C10: the pre-noise relative time t i − t ref is nonnegative for every
station i and exactly zero at the reference index, where t is the true
travel-time vector and ref its argmin (earthquake.py lines 77–81). -/
theorem C10_pre_noise_relative_times {n : ℕ} (stations : Fin (n + 1) → Vec3)
    (tp : Vec3) (v : ℝ) (i : Fin (n + 1)) :
    0 ≤ travel_times stations tp v i -
        travel_times stations tp v (scenario_ref stations tp v) ∧
    travel_times stations tp v (scenario_ref stations tp v) -
        travel_times stations tp v (scenario_ref stations tp v) = 0 :=
  ⟨sub_nonneg.mpr (argminFin_le (travel_times stations tp v) i), sub_self _⟩

/-- C5 counterexample (negation of the claim): no scenario of main's size
(n = 7 stations) and no noise realization — in particular none with a
nonzero noise entry — has a nonzero measured relative time at the reference
index, because line 85 of earthquake.py computes that entry as
noisy_times[ref] − noisy_times[ref]. -/
theorem C5_counterexample :
    ¬ ∃ (stations : Fin 7 → Vec3) (tp : Vec3) (v : ℝ) (noise : Fin 7 → ℝ),
        (∃ j, noise j ≠ 0) ∧
        measured_rel_times stations tp v noise (scenario_ref stations tp v) ≠
          0 := by
  rintro ⟨s, tp, v, noise, -, hne⟩
  exact hne (sub_self _)

/-- C5 amended: even for noise realizations with some nonzero noise entry
(noiseStd > 0), the measured relative time at the reference index is exactly
zero: the reference is fixed from the true times, but the subtraction
noisy_times − noisy_times[ref] cancels the noise at the reference entry. -/
theorem C5_amended_ref_entry_zero {n : ℕ} (stations : Fin (n + 1) → Vec3)
    (tp : Vec3) (v : ℝ) (noise : Fin (n + 1) → ℝ) (j : Fin (n + 1))
    (hj : noise j ≠ 0) :
    measured_rel_times stations tp v noise (scenario_ref stations tp v) = 0 :=
  sub_self _

/-- C5 witness: a concrete one-station scenario with nonzero noise in which
the measured relative time at the reference index evaluates to zero. -/
theorem C5_witness :
    ((fun _ : Fin 1 => (1 : ℝ)) 0 ≠ 0) ∧
    measured_rel_times (fun _ : Fin 1 => ⟨0, 0, 0⟩) ⟨0, 0, 100⟩ 1 (fun _ => 1)
      (scenario_ref (fun _ : Fin 1 => ⟨0, 0, 0⟩) ⟨0, 0, 100⟩ 1) = 0 :=
  ⟨by norm_num,
    C5_amended_ref_entry_zero (fun _ : Fin 1 => ⟨0, 0, 0⟩) ⟨0, 0, 100⟩ 1
      (fun _ => 1) 0 (by norm_num)⟩

/-- C7 counterexample: with depthMin = 10000 > depthMax = 500 (an invalid
configuration per the spec), `gen_true_point` proceeds and returns a point —
no InvalidConfiguration error exists anywhere in earthquake.py (main
hardcodes its constants at lines 66–70 and performs no validation; numpy's
`uniform(low, high)` raises no error for low > high). -/
theorem C7_counterexample :
    (10000 : ℝ) > 500 ∧
    gen_true_point 30000 10000 500 0 0 0 = ⟨0, 0, -10000⟩ := by
  refine ⟨by norm_num, ?_⟩
  show (⟨Real.sqrt 0 * 30000 * Real.cos (0 * (2 * Real.pi)),
        Real.sqrt 0 * 30000 * Real.sin (0 * (2 * Real.pi)),
        -(10000 + (500 - 10000) * 0)⟩ : Vec3) = ⟨0, 0, -10000⟩
  rw [Real.sqrt_zero]
  norm_num

/-- C7 amended: the program performs no configuration validation: even when
depthMin > depthMax it proceeds, and the generated depth is the literal
interpolation −(depthMin + (depthMax − depthMin)·u), with no error
surfaced. -/
theorem C7_amended_no_validation (rad dmin dmax u1 u2 u3 : ℝ)
    (h : dmin > dmax) :
    (gen_true_point rad dmin dmax u1 u2 u3).z =
      -(dmin + (dmax - dmin) * u3) := rfl

/-- C7 witness: the invalid configuration depthMin = 10000 > depthMax = 500
is processed, yielding depth −10000 at draw u3 = 0. -/
theorem C7_witness :
    (10000 : ℝ) > 500 ∧
    (gen_true_point 30000 10000 500 0 0 0).z = -(10000 + (500 - 10000) * 0) :=
  ⟨by norm_num, C7_amended_no_validation 30000 10000 500 0 0 0 (by norm_num)⟩

/-- The full set of `np.random` draws consumed by one run of main
(earthquake.py lines 73–85): three draws per station, three draws for the
true point, and one Gaussian draw per station.  These model the state of the
process-global numpy RNG, which main reseeds from OS entropy with
`np.random.seed()` (line 64) — no caller-injectable seed exists. -/
structure Draws (n : ℕ) where
  su1 : Fin n → ℝ
  su2 : Fin n → ℝ
  su3 : Fin n → ℝ
  tu1 : ℝ
  tu2 : ℝ
  tu3 : ℝ
  noise : Fin n → ℝ

/-- earthquake.py lines 73–85 as one function of the ambient RNG draws:
stations, true point, reference index and measured relative times. -/
noncomputable def run_scenario {n : ℕ} (rad dmin dmax v : ℝ)
    (d : Draws (n + 1)) :
    (Fin (n + 1) → Vec3) × Vec3 × Fin (n + 1) × (Fin (n + 1) → ℝ) :=
  let stations := gen_station_positions (n + 1) rad d.su1 d.su2 d.su3
  let tp := gen_true_point rad dmin dmax d.tu1 d.tu2 d.tu3
  (stations, tp, scenario_ref stations tp v,
    measured_rel_times stations tp v d.noise)

/-- C8 counterexample: the scenario generator's output is a function of the
ambient global RNG draws, which `np.random.seed()` (no argument, line 64)
seeds from OS entropy: two runs whose ambient draws differ produce different
stations.  No explicit random-source parameter exists in
`gen_station_positions` (line 14) for a caller to inject a seed into. -/
theorem C8_counterexample :
    (gen_station_positions 1 1 (fun _ => 0) (fun _ => 0) (fun _ => 0) 0).z =
      -500 ∧
    (gen_station_positions 1 1 (fun _ => 0) (fun _ => 0) (fun _ => 1) 0).z =
      500 ∧
    gen_station_positions 1 1 (fun _ => 0) (fun _ => 0) (fun _ => 0) 0 ≠
      gen_station_positions 1 1 (fun _ => 0) (fun _ => 0) (fun _ => 1) 0 := by
  refine ⟨show (-500 : ℝ) + 1000 * 0 = -500 by norm_num,
    show (-500 : ℝ) + 1000 * 1 = 500 by norm_num, ?_⟩
  intro h
  have hz2 : (-500 : ℝ) + 1000 * 0 = -500 + 1000 * 1 := congrArg Vec3.z h
  norm_num at hz2

/-- C8 amended: the generator accepts no random source: it reads the
implicit global numpy RNG, which main reseeds from OS entropy, so
reproducibility by seed injection is impossible.  What does hold is
determinism in the ambient draw values: if two runs happen to consume
identical global RNG draws, they produce identical stations, true point,
reference index and measured relative times.  (This is one direction only:
equal outputs do not imply equal draws — e.g. offsetting every noise draw
by the same constant leaves all four outputs unchanged.) -/
theorem C8_amended_determinism {n : ℕ} (rad dmin dmax v : ℝ)
    (d d' : Draws (n + 1)) (h : d = d') :
    run_scenario rad dmin dmax v d = run_scenario rad dmin dmax v d' := by
  rw [h]

/-- C8 witness: two runs over identical concrete ambient draws yield
identical scenario output. -/
theorem C8_witness :
    (⟨fun _ => 0, fun _ => 0, fun _ => 0, 0, 0, 0, fun _ => 0⟩ : Draws 1) =
      (⟨fun _ => 0, fun _ => 0, fun _ => 0, 0, 0, 0, fun _ => 0⟩ : Draws 1) ∧
    run_scenario 30000 500 10000 5000
        (⟨fun _ => 0, fun _ => 0, fun _ => 0, 0, 0, 0, fun _ => 0⟩ : Draws 1) =
      run_scenario 30000 500 10000 5000
        (⟨fun _ => 0, fun _ => 0, fun _ => 0, 0, 0, 0, fun _ => 0⟩ : Draws 1) :=
  ⟨rfl, C8_amended_determinism 30000 500 10000 5000 _ _ rfl⟩

/-- The fields of the scipy OptimizeResult that earthquake.py could consult:
the solution `x`, the termination `status` and the `success` flag.  Main
(lines 102–104) reads only `.x`. -/
structure LeastSquaresResult where
  x : Vec3
  status : ℤ
  success : Bool

/-- The outcome space demanded by the spec for the solve step: either a
point estimate or a degenerate-geometry report. -/
inductive SolveReport where
  | estimate (p : Vec3)
  | degenerateGeometry

/-- earthquake.py lines 102–109: `est_point = res_opt.x` is printed
unconditionally.  No status, success flag, singular value or station
geometry is ever inspected, so the report is always a point estimate. -/
def main_solve_report (res : LeastSquaresResult) : SolveReport :=
  SolveReport.estimate res.x

/-- C4 counterexample: even for an optimizer result whose success flag is
false (as scipy would produce on failure, e.g. on rank-deficient collinear
geometry), main reports the point `res_opt.x` as the estimate and never a
degenerate-configuration outcome — no degeneracy detection exists in the
code, which moreover always uses n = 7 random stations. -/
theorem C4_counterexample :
    main_solve_report ⟨⟨0, 0, 0⟩, 0, false⟩ = SolveReport.estimate ⟨0, 0, 0⟩ ∧
    main_solve_report ⟨⟨0, 0, 0⟩, 0, false⟩ ≠ SolveReport.degenerateGeometry :=
  ⟨rfl, fun h => SolveReport.noConfusion h⟩

/-- C4 amended: the program performs no rank-deficiency detection: for every
optimizer result — whatever the station geometry that produced it — main
reports the optimizer's point `res_opt.x` as the estimate; a
degenerate-configuration outcome is never produced. -/
theorem C4_amended_always_estimate (res : LeastSquaresResult) :
    main_solve_report res = SolveReport.estimate res.x := rfl

/-- The objective that the call `least_squares(residuals_time, p0, args)` at
earthquake.py lines 102–103 minimizes: (1/2) Σ residual i ². -/
noncomputable def cost {n : ℕ} (stations : Fin n → Vec3) (rel : Fin n → ℝ)
    (v : ℝ) (ref : Fin n) (p : Vec3) : ℝ :=
  (1 / 2) * ∑ i, residuals_time p stations rel v ref i ^ 2

/-- p is a global minimizer of the least-squares objective built from
`residuals_time` — the idealized semantics of the solver's estimate. -/
def IsLeastSquaresEstimate {n : ℕ} (stations : Fin n → Vec3)
    (rel : Fin n → ℝ) (v : ℝ) (ref : Fin n) (p : Vec3) : Prop :=
  ∀ q : Vec3, cost stations rel v ref p ≤ cost stations rel v ref q

/-- Two stations on the x-axis at 0 and 2 m, a concrete scenario for the
shift-invariance counterexample. -/
noncomputable def cexStations : Fin 2 → Vec3 :=
  fun i => if i = 0 then ⟨0, 0, 0⟩ else ⟨2, 0, 0⟩

/-- Measured relative times of the concrete scenario (consistent, noise-free
data: both arrival-time differences are 0). -/
noncomputable def origRel : Fin 2 → ℝ := fun _ => 0

/-- The measured relative times after adding the constant Δ = 1 to every
entry. -/
noncomputable def shiftedRel : Fin 2 → ℝ := fun i => origRel i + 1

/-- Difference of the two station distances from p, the quantity the
residual of station 1 is built from in the concrete scenario (v = 1). -/
noncomputable def ddiff (p : Vec3) : ℝ :=
  dist3 ⟨2, 0, 0⟩ p - dist3 ⟨0, 0, 0⟩ p

theorem dist3_x_axis (a b : ℝ) : dist3 ⟨a, 0, 0⟩ ⟨b, 0, 0⟩ = |a - b| := by
  show Real.sqrt ((a - b) ^ 2 + (0 - 0) ^ 2 + (0 - 0) ^ 2) = |a - b|
  rw [show (a - b) ^ 2 + ((0 : ℝ) - 0) ^ 2 + ((0 : ℝ) - 0) ^ 2 = (a - b) ^ 2
      by ring,
    Real.sqrt_sq_eq_abs]

theorem cost_cex_orig (p : Vec3) :
    cost cexStations origRel 1 0 p = (1 / 2) * ddiff p ^ 2 := by
  simp [cost, residuals_time, Fin.sum_univ_two, cexStations, origRel, ddiff]

theorem cost_cex_shift0 (p : Vec3) :
    cost cexStations shiftedRel 1 0 p = (1 / 2) * (1 + (ddiff p - 1) ^ 2) := by
  simp [cost, residuals_time, Fin.sum_univ_two, cexStations, shiftedRel,
    origRel, ddiff]

theorem cost_cex_shift1 (p : Vec3) :
    cost cexStations shiftedRel 1 1 p = (1 / 2) * ((ddiff p + 1) ^ 2 + 1) := by
  simp [cost, residuals_time, Fin.sum_univ_two, cexStations, shiftedRel,
    origRel, ddiff]
  ring

theorem ddiff_pa : ddiff ⟨1, 0, 0⟩ = 0 := by
  unfold ddiff
  rw [dist3_x_axis, dist3_x_axis, show (2 : ℝ) - 1 = 1 by norm_num,
    show (0 : ℝ) - 1 = -1 by norm_num, abs_one, abs_neg, abs_one]
  norm_num

theorem ddiff_pb : ddiff ⟨1 / 2, 0, 0⟩ = 1 := by
  unfold ddiff
  rw [dist3_x_axis, dist3_x_axis, show (2 : ℝ) - 1 / 2 = 3 / 2 by norm_num,
    show (0 : ℝ) - 1 / 2 = -(1 / 2) by norm_num, abs_neg,
    abs_of_nonneg (show (0 : ℝ) ≤ 3 / 2 by norm_num),
    abs_of_nonneg (show (0 : ℝ) ≤ 1 / 2 by norm_num)]
  norm_num

theorem ddiff_pc : ddiff ⟨3 / 2, 0, 0⟩ = -1 := by
  unfold ddiff
  rw [dist3_x_axis, dist3_x_axis, show (2 : ℝ) - 3 / 2 = 1 / 2 by norm_num,
    show (0 : ℝ) - 3 / 2 = -(3 / 2) by norm_num, abs_neg,
    abs_of_nonneg (show (0 : ℝ) ≤ 1 / 2 by norm_num),
    abs_of_nonneg (show (0 : ℝ) ≤ 3 / 2 by norm_num)]
  norm_num

/-- C6 counterexample: a concrete two-station scenario in which adding the
constant Δ = 1 to every measured relative time changes the least-squares
estimate.  Point (1,0,0) is a global minimizer of the original objective;
(1/2,0,0) and (3/2,0,0) are global minimizers of the shifted objective with
reference index 0 kept and with it moved to the other station, respectively
(both possible adjustments of the reference, since with Δ = 1 no station has
a shifted relative time of 0); and NO point is simultaneously a minimizer of
the original objective and of either shifted variant — the estimate
necessarily changes. -/
theorem C6_counterexample :
    IsLeastSquaresEstimate cexStations origRel 1 0 ⟨1, 0, 0⟩ ∧
    IsLeastSquaresEstimate cexStations shiftedRel 1 0 ⟨1 / 2, 0, 0⟩ ∧
    IsLeastSquaresEstimate cexStations shiftedRel 1 1 ⟨3 / 2, 0, 0⟩ ∧
    ¬ ∃ p : Vec3,
        IsLeastSquaresEstimate cexStations origRel 1 0 p ∧
        (IsLeastSquaresEstimate cexStations shiftedRel 1 0 p ∨
          IsLeastSquaresEstimate cexStations shiftedRel 1 1 p) := by
  refine ⟨?_, ?_, ?_, ?_⟩
  · intro q
    rw [cost_cex_orig, cost_cex_orig, ddiff_pa]
    nlinarith [sq_nonneg (ddiff q)]
  · intro q
    rw [cost_cex_shift0, cost_cex_shift0, ddiff_pb]
    nlinarith [sq_nonneg (ddiff q - 1)]
  · intro q
    rw [cost_cex_shift1, cost_cex_shift1, ddiff_pc]
    nlinarith [sq_nonneg (ddiff q + 1)]
  · rintro ⟨p, hp, hs⟩
    have hg : ddiff p = 0 := by
      have h1 := hp ⟨1, 0, 0⟩
      rw [cost_cex_orig, cost_cex_orig, ddiff_pa] at h1
      have h2 : ddiff p ^ 2 = 0 := by nlinarith [sq_nonneg (ddiff p)]
      exact (pow_eq_zero_iff (by norm_num : (2 : ℕ) ≠ 0)).mp h2
    rcases hs with hs | hs
    · have hb := hs ⟨1 / 2, 0, 0⟩
      rw [cost_cex_shift0, cost_cex_shift0, ddiff_pb, hg] at hb
      norm_num at hb
    · have hc := hs ⟨3 / 2, 0, 0⟩
      rw [cost_cex_shift1, cost_cex_shift1, ddiff_pc, hg] at hc
      norm_num at hc

/-- C6 amended: the model is NOT invariant under adding a constant to the
measured relative times: adding d to every entry shifts every residual by
−d, changing the least-squares objective and, as the counterexample above
shows, its minimizer in general.  Under exact re-referencing — adding
d = −rel j to every entry and making station j the reference — each
residual becomes residual i − residual j, so zero-residual (exact-fit)
points are preserved; the estimate itself is still not unchanged in
general. -/
theorem C6_amended_residual_shift {n : ℕ} (p : Vec3) (stations : Fin n → Vec3)
    (rel : Fin n → ℝ) (v : ℝ) (ref j i : Fin n) (d : ℝ) :
    residuals_time p stations (fun k => rel k + d) v ref i =
      residuals_time p stations rel v ref i - d ∧
    residuals_time p stations (fun k => rel k - rel j) v j i =
      residuals_time p stations rel v ref i -
        residuals_time p stations rel v ref j := by
  constructor
  · show (dist3 (stations i) p / v - dist3 (stations ref) p / v) -
        (rel i + d) =
      ((dist3 (stations i) p / v - dist3 (stations ref) p / v) - rel i) - d
    ring
  · show (dist3 (stations i) p / v - dist3 (stations j) p / v) -
        (rel i - rel j) =
      ((dist3 (stations i) p / v - dist3 (stations ref) p / v) - rel i) -
        ((dist3 (stations j) p / v - dist3 (stations ref) p / v) - rel j)
    ring

end Earthquake
